import Mathlib

/-!
Verification of the gameserver repository (game session subsystem).

The Go sources are embedded shallowly: the SQLite tables become lists of
rows, every query/update becomes a pure function over a `DB` value, and
the websocket hub's `processMessage` becomes a function from a database
state and an inbound envelope to the database state after the message
together with the per-connection replies and the broadcasts it emits.
Randomly generated tokens (`generateToken`) and JSON decoding of the
`Action` payload (`encoding/json`) are external effects; they enter the
embedding as explicit parameters.
-/

namespace GameServer

/-- A row of the `users` table (id, screen_name; the other columns are
owned by the Identity subsystem and unused by the game core). -/
structure UserRow where
  uid : Int
  screenName : String
deriving DecidableEq, Repr

/-- A row of the `tokens` table (user_id, token). -/
structure TokenRow where
  userId : Int
  tok : String
deriving DecidableEq, Repr

/-- A row of the `games` table. -/
structure GameRow where
  gid : Int
  gtype : String
  whiteUserId : Int
  blackUserId : Int
  whiteToken : String
  blackToken : String
  viewerToken : String
  gameOver : Bool
  gameResult : String
deriving DecidableEq, Repr

/-- A row of the `actions` table; primary key is `(gameId, actionNum)`. -/
structure ActionRow where
  gameId : Int
  actionNum : Int
  action : String
  signature : String
deriving DecidableEq, Repr

/-- The SQLite database state.  `nextGameId` models the AUTOINCREMENT
counter of the `games` table. -/
structure DB where
  users : List UserRow
  tokens : List TokenRow
  games : List GameRow
  actions : List ActionRow
  nextGameId : Int
deriving DecidableEq, Repr

/-- `SELECT ... FROM games WHERE id = ?` (ids are unique, first match). -/
def findGame (db : DB) (gid : Int) : Option GameRow :=
  db.games.find? (fun g => g.gid == gid)

/-- `SELECT user_id FROM tokens WHERE token = ?`. -/
def lookupTokenUser (db : DB) (token : String) : Option Int :=
  (db.tokens.find? (fun t => t.tok == token)).map (fun t => t.userId)

/-- `SELECT screen_name FROM users WHERE id = ?` (the LEFT JOIN legs of the
game queries). -/
def screenNameOfUser (db : DB) (uid : Int) : Option String :=
  (db.users.find? (fun u => u.uid == uid)).map (fun u => u.screenName)

/-- `getUserIDFromScreenName` (db.go): `SELECT id FROM users WHERE
screen_name = ?`; `none` is the sql not-found error. -/
def getUserIDFromScreenName (db : DB) (screenName : String) : Option Int :=
  (db.users.find? (fun u => u.screenName == screenName)).map (fun u => u.uid)

/-- `GetUserWithToken` (auth.go): joins `tokens` with `users` on the
presented token. -/
def GetUserWithToken (db : DB) (token : String) : Option UserRow :=
  (db.tokens.find? (fun t => t.tok == token)).bind
    (fun t => db.users.find? (fun u => u.uid == t.userId))

/-- The `PlayerType` enumeration of db.go. -/
inductive PlayerType where
  | white
  | black
  | viewer
  | invalid
deriving DecidableEq, Repr

/-- `PlayerType.String()` of db.go. -/
def PlayerType.str : PlayerType → String
  | .white => "white"
  | .black => "black"
  | .viewer => "viewer"
  | .invalid => "invalid"

/-- `validateGameToken` (db.go): resolves `(game_id, token)` to a role and
the canonical role token.  Translated branch for branch: the two seat-token
comparisons (each guarded by `token != ""`), then the user-token lookup
against the seat user ids, then the viewer-token comparison (guarded by
`viewerToken != ""`), else invalid.  A missing game row is the sql error
path returning `(InvalidPlayer, "")`. -/
def validateGameToken (db : DB) (gid : Int) (token : String) :
    PlayerType × String :=
  match findGame db gid with
  | none => (.invalid, "")
  | some g =>
    if token != "" && token == g.whiteToken then
      (.white, g.whiteToken)
    else if token != "" && token == g.blackToken then
      (.black, g.blackToken)
    else
      match lookupTokenUser db token with
      | some userID =>
        if userID == g.whiteUserId then
          (.white, g.whiteToken)
        else if userID == g.blackUserId then
          (.black, g.blackToken)
        else if token == g.viewerToken && g.viewerToken != "" then
          (.viewer, g.viewerToken)
        else
          (.invalid, "")
      | none =>
        if token == g.viewerToken && g.viewerToken != "" then
          (.viewer, g.viewerToken)
        else
          (.invalid, "")

/-- Character-list core of Go's `strings.Split` with a one-character
separator: splitting the empty string yields one empty field, `[""]`. -/
def splitOnCharList (c : Char) : List Char → List (List Char)
  | [] => [[]]
  | x :: xs =>
    let r := splitOnCharList c xs
    if x == c then [] :: r
    else
      match r with
      | [] => [[x]]
      | y :: ys => (x :: y) :: ys

/-- Go's `strings.Split(s, " ")`. -/
def splitSpace (s : String) : List String :=
  (splitOnCharList ' ' s.data).map (fun l => String.mk l)

/-- `GetNumberOfActions` (action.go): `SELECT COUNT(*) FROM actions WHERE
game_id = ?`. -/
def GetNumberOfActions (db : DB) (gid : Int) : Nat :=
  (db.actions.filter (fun a => a.gameId == gid)).length

/-- `checkActionValidity` (action.go): an action is valid only when its
number is the current count plus one; otherwise the error
`invalid action number: got N, expected M`. -/
def checkActionValidity (db : DB) (gid : Int) (actionNum : Int) : Option String :=
  let numActions : Int := GetNumberOfActions db gid
  if actionNum != numActions + 1 then
    some ("invalid action number: got " ++ toString actionNum ++
      ", expected " ++ toString (numActions + 1))
  else
    none

/-- `saveAction` (action.go): `INSERT INTO actions(...)`; the primary key
`(game_id, action_num)` makes a duplicate insert fail. -/
def saveAction (db : DB) (gid actionNum : Int) (action signature : String) :
    Except String DB :=
  if db.actions.any (fun a => a.gameId == gid && a.actionNum == actionNum) then
    .error "UNIQUE constraint failed: actions.game_id, actions.action_num"
  else
    .ok { db with actions := db.actions ++ [⟨gid, actionNum, action, signature⟩] }

/-- `getAllActions` (action.go): all rows of the game, in table order. -/
def getAllActions (db : DB) (gid : Int) : List ActionRow :=
  db.actions.filter (fun a => a.gameId == gid)

/-- `checkGameStatus` (db.go): sql error when the game row is missing,
`game is over` when `game_over = 1`, no error otherwise. -/
def checkGameStatus (db : DB) (gid : Int) : Option String :=
  match findGame db gid with
  | none => some "sql: no rows in result set"
  | some g => if g.gameOver then some "game is over" else none

/-- `markGameAsFinished` (db.go): `UPDATE games SET game_over = 1,
game_result = ? WHERE id = ?` — unconditional on the current status. -/
def markGameAsFinished (db : DB) (gid : Int) (result : String) : DB :=
  { db with games := db.games.map (fun g =>
      if g.gid == gid then { g with gameOver := true, gameResult := result } else g) }

/-- Insertion step of the `ORDER BY action_num` sort. -/
def insertByNum (a : ActionRow) : List ActionRow → List ActionRow
  | [] => [a]
  | b :: rest =>
    if a.actionNum ≤ b.actionNum then a :: b :: rest else b :: insertByNum a rest

/-- `ORDER BY action_num` ascending (stable insertion sort). -/
def sortByActionNum : List ActionRow → List ActionRow
  | [] => []
  | a :: rest => insertByNum a (sortByActionNum rest)

/-- `GetGameRecord` (game.go): the actions of the game ordered by
`action_num`, joined with single spaces, together with their count. -/
def GetGameRecord (db : DB) (gid : Int) : String × Nat :=
  let actions := sortByActionNum (getAllActions db gid)
  (String.intercalate " " (actions.map (fun a => a.action)), actions.length)

/-- The `Game` struct of game.go: the response/request shape composed of
stored columns plus the derived `num_actions`, `game_record`, `public`. -/
structure Game where
  id : Int
  gtype : String
  whitePlayer : String
  blackPlayer : String
  whiteToken : String
  blackToken : String
  viewerToken : String
  gameOver : Bool
  gameResult : String
  numActions : Nat
  gameRecord : String
  public : Bool
deriving DecidableEq, Repr

/-- `GetGameWithId` (game.go): single-game query joined with the two user
legs; `Public` is set exactly when `ViewerToken` is empty; the record and
count come from `GetGameRecord`. -/
def GetGameWithId (db : DB) (id : Int) : Option Game :=
  match findGame db id with
  | none => none
  | some g =>
    let r := GetGameRecord db id
    some { id := g.gid, gtype := g.gtype,
           whitePlayer := (screenNameOfUser db g.whiteUserId).getD "",
           blackPlayer := (screenNameOfUser db g.blackUserId).getD "",
           whiteToken := g.whiteToken, blackToken := g.blackToken,
           viewerToken := g.viewerToken, gameOver := g.gameOver,
           gameResult := g.gameResult, numActions := r.2, gameRecord := r.1,
           public := g.viewerToken == "" }

/-- Row conversion of `getGamesWithQuery` (game.go): the list query selects
no action columns, so `NumActions`/`GameRecord` keep their zero values, and
`Public` is set when `ViewerToken` is NOT empty (`if game.ViewerToken != ""
{ game.Public = true }`). -/
def scanGameListRow (db : DB) (g : GameRow) : Game :=
  { id := g.gid, gtype := g.gtype,
    whitePlayer := (screenNameOfUser db g.whiteUserId).getD "",
    blackPlayer := (screenNameOfUser db g.blackUserId).getD "",
    whiteToken := g.whiteToken, blackToken := g.blackToken,
    viewerToken := g.viewerToken, gameOver := g.gameOver,
    gameResult := g.gameResult, numActions := 0, gameRecord := "",
    public := g.viewerToken != "" }

/-- The `ORDER BY (white_user_id == -1 OR black_user_id == -1)` key. -/
def awaitingSeat (g : GameRow) : Bool :=
  g.whiteUserId == -1 || g.blackUserId == -1

/-- `listGamesByUser` (game.go): games where the user sits on either side,
games still awaiting a player ordered last, rows converted by
`getGamesWithQuery`. -/
def listGamesByUser (db : DB) (user : UserRow) : List Game :=
  let rows := db.games.filter (fun g =>
    g.whiteUserId == user.uid || g.blackUserId == user.uid)
  let rows := rows.filter (fun g => !awaitingSeat g) ++ rows.filter awaitingSeat
  rows.map (scanGameListRow db)

/-- `joinableGamesByUser` (game.go): one seat unassigned, empty viewer
token, and the user on neither seat. -/
def joinableGamesByUser (db : DB) (user : UserRow) : List Game :=
  (db.games.filter (fun g =>
    (g.whiteUserId == -1 || g.blackUserId == -1)
    && g.viewerToken == ""
    && (g.whiteUserId != user.uid && g.blackUserId != user.uid))).map
    (scanGameListRow db)

/-- `listGamesByUserHandler` (game.go): list plus redaction of the seat
tokens the requesting user does not own. -/
def listGamesByUserHandler (db : DB) (user : UserRow) : List Game :=
  (listGamesByUser db user).map (fun game =>
    let game := if game.whitePlayer != user.screenName then
      { game with whiteToken := "" } else game
    if game.blackPlayer != user.screenName then
      { game with blackToken := "" } else game)

/-- `joinableGamesHandler` (game.go): joinable list with both seat tokens
cleared. -/
def joinableGamesHandler (db : DB) (user : UserRow) : List Game :=
  (joinableGamesByUser db user).map (fun game =>
    { game with whiteToken := "", blackToken := "" })

/-- `tokenMismatchUser` (game.go): true when the token resolves to no user
or to a user with a different screen name. -/
def tokenMismatchUser (db : DB) (screenName : String) (token : String) : Bool :=
  match GetUserWithToken db token with
  | none => true
  | some user => user.screenName != screenName

/-- `getUserIDFromScreenName` lifted to the sql error. -/
def userIdOrErr (db : DB) (screenName : String) : Except String Int :=
  match getUserIDFromScreenName db screenName with
  | none => .error "sql: no rows in result set"
  | some uid => .ok uid

/-- `CreateGame` (game.go): player/token validation, token generation
(`genWhite`/`genBlack` are the two fresh tokens; `genViewer` the viewer
token generated only when the request is not public), insertion of the game
row, and insertion of one action per space-separated word of the request's
`GameRecord`, numbered from 1.  Returns the stored game via
`GetGameWithId`. -/
def CreateGame (db : DB) (request : Game) (genWhite genBlack genViewer : String) :
    Except String (DB × Game) := do
  if request.whitePlayer != "" then
    let _ ← userIdOrErr db request.whitePlayer
    if tokenMismatchUser db request.whitePlayer request.whiteToken then
      throw "incorrect token for white player"
  if request.blackPlayer != "" then
    let _ ← userIdOrErr db request.blackPlayer
    if tokenMismatchUser db request.blackPlayer request.blackToken then
      throw "incorrect token for black player"
  if request.whitePlayer == request.blackPlayer then
    throw "white and black players cannot be the same"
  let whiteToken := genWhite
  let blackToken := genBlack
  let viewerToken := if !request.public then genViewer else ""
  let whiteUserID ← if request.whitePlayer == "" then pure (-1 : Int)
    else userIdOrErr db request.whitePlayer
  let blackUserID ← if request.blackPlayer == "" then pure (-1 : Int)
    else userIdOrErr db request.blackPlayer
  let gameID := db.nextGameId
  let db1 : DB := { db with
    games := db.games ++ [⟨gameID, request.gtype, whiteUserID, blackUserID,
      whiteToken, blackToken, viewerToken, false, ""⟩],
    nextGameId := db.nextGameId + 1 }
  let actions := splitSpace request.gameRecord
  let db2 : DB := { db1 with
    actions := db1.actions ++ actions.enum.map (fun p =>
      ⟨gameID, (p.1 : Int) + 1, p.2, ""⟩) }
  match GetGameWithId db2 gameID with
  | none => throw "sql: no rows in result set"
  | some game => return (db2, game)

/-- `createGameHandler` (game.go): create then clear the token of every
seat the request did not name. -/
def createGameHandler (db : DB) (request : Game)
    (genWhite genBlack genViewer : String) : Except String (DB × Game) := do
  let (db', newGame) ← CreateGame db request genWhite genBlack genViewer
  let newGame := if request.blackPlayer == "" then
    { newGame with blackToken := "" } else newGame
  let newGame := if request.whitePlayer == "" then
    { newGame with whiteToken := "" } else newGame
  return (db', newGame)

/-- `updateGame` (game.go): fill whichever seat is empty in the fetched
game view with the new user id and token. -/
def updateGame (db : DB) (game : Game) (userId : Int) (token : String) :
    Except String DB :=
  if game.whitePlayer == "" then
    .ok { db with games := db.games.map (fun g =>
      if g.gid == game.id then
        { g with whiteUserId := userId, whiteToken := token } else g) }
  else if game.blackPlayer == "" then
    .ok { db with games := db.games.map (fun g =>
      if g.gid == game.id then
        { g with blackUserId := userId, blackToken := token } else g) }
  else
    .error "game is full"

/-- `joinGameHandler` (game.go): fetch the game, reject a full game,
resolve the caller's user token, then fill the open seat with a fresh role
token (`genToken`) and return the view with the other seat's token
cleared. -/
def joinGameHandler (db : DB) (reqId : Int) (reqToken : String)
    (genToken : String) : Except String (DB × Game) :=
  match GetGameWithId db reqId with
  | none => .error "invalid game id"
  | some game =>
    if game.whitePlayer != "" && game.blackPlayer != "" then
      .error "game is full"
    else
      match GetUserWithToken db reqToken with
      | none => .error "incorrect token"
      | some user =>
        match updateGame db game user.uid genToken with
        | .error _ => .error "cannot update game"
        | .ok db' =>
          let game :=
            if game.whitePlayer == "" then
              { game with blackToken := "", whitePlayer := user.screenName,
                          whiteToken := genToken }
            else
              { game with whiteToken := "", blackPlayer := user.screenName,
                          blackToken := genToken }
          .ok (db', game)

/-- The inbound/outbound `WebSocketMessage` envelope. -/
structure WsMsg where
  gameId : Int
  token : String
  msgType : String
  message : String
deriving DecidableEq, Repr

/-- The `Action` payload struct (action.go). -/
structure ActionMsg where
  actionNum : Int
  action : String
  signature : String
deriving DecidableEq, Repr

/-- The `data any` argument of `sendJSONMessage`, kept structured instead
of JSON-marshalled text. -/
inductive SentData where
  | jsonStr (s : String)
  | jsonActions (l : List ActionRow)
  | gameJoined (player gameToken whitePlayer blackPlayer : String)
      (actions : List ActionRow)
  | raw (s : String)
deriving DecidableEq, Repr

/-- An outbound envelope as written by `conn.WriteJSON`: the
`WebSocketMessage` the server constructs (or relays). -/
structure OutEnvelope where
  gameId : Int
  token : String
  msgType : String
  payload : SentData
deriving DecidableEq, Repr

/-- `sendJSONMessage` (websocket hub): wraps the marshalled data in a
`WebSocketMessage{GameID, Type, Message}` — the `Token` field is left at
its zero value, the empty string. -/
def sendJSONMessage (gameId : Int) (messageType : String) (data : SentData) :
    OutEnvelope :=
  { gameId := gameId, token := "", msgType := messageType, payload := data }

/-- The effects of one `processMessage` call: the database afterwards, the
replies written to the sender, the envelopes handed to `broadcast`, and
whether `addConnection` subscribed the sender. -/
structure Effects where
  db : DB
  replies : List OutEnvelope
  broadcasts : List OutEnvelope
  subscribed : Bool
deriving DecidableEq, Repr

/-- `processMessage` (websocket hub): dispatch on `message_type`.
`Join` replies `GameJoined` and subscribes; `Action` unmarshals the payload
(`decodeAction` stands for `json.Unmarshal`, silent on failure), checks the
game status, checks the action number, saves, then broadcasts the original
inbound envelope; `SendFullGame` replies `FullGame`; `RejectAction` and
`GameOver` broadcast a `GameOver` envelope and mark the game finished; any
other type replies `Error "Unknown message type ..."`. -/
def processMessage (decodeAction : String → Option ActionMsg) (db : DB)
    (message : WsMsg) (playerType : PlayerType) (token : String) : Effects :=
  if message.msgType == "Join" then
    match GetGameWithId db message.gameId with
    | none =>
      ⟨db, [sendJSONMessage message.gameId "Error"
        (.jsonStr "sql: no rows in result set")], [], false⟩
    | some game =>
      let actions := getAllActions db message.gameId
      ⟨db, [sendJSONMessage message.gameId "GameJoined"
        (.gameJoined playerType.str token game.whitePlayer game.blackPlayer
          actions)], [], true⟩
  else if message.msgType == "Action" then
    match decodeAction message.message with
    | none => ⟨db, [], [], false⟩
    | some action =>
      match checkGameStatus db message.gameId with
      | some e =>
        ⟨db, [sendJSONMessage message.gameId "Error" (.jsonStr e)], [], false⟩
      | none =>
        match checkActionValidity db message.gameId action.actionNum with
        | some e =>
          ⟨db, [sendJSONMessage message.gameId "Error" (.jsonStr e)], [], false⟩
        | none =>
          match saveAction db message.gameId action.actionNum action.action
              action.signature with
          | .error e =>
            ⟨db, [sendJSONMessage message.gameId "Error" (.jsonStr e)], [],
              false⟩
          | .ok db' =>
            ⟨db', [], [⟨message.gameId, message.token, message.msgType,
              .raw message.message⟩], false⟩
  else if message.msgType == "SendFullGame" then
    ⟨db, [sendJSONMessage message.gameId "FullGame"
      (.jsonActions (getAllActions db message.gameId))], [], false⟩
  else if message.msgType == "RejectAction" then
    ⟨markGameAsFinished db message.gameId "Rejected action detected", [],
      [⟨message.gameId, "", "GameOver", .raw "Rejected action"⟩], false⟩
  else if message.msgType == "GameOver" then
    ⟨markGameAsFinished db message.gameId message.message, [],
      [⟨message.gameId, "", "GameOver", .raw message.message⟩], false⟩
  else
    ⟨db, [sendJSONMessage message.gameId "Error"
      (.jsonStr ("Unknown message type " ++ message.msgType))], [], false⟩

/-- Outcome of one loop iteration of `listenForWebSocketMessages` for a
decoded text envelope: either the connection is closed (invalid game id or
token) or the message is processed and the loop continues reading. -/
inductive StepOutcome where
  | closed
  | kept (eff : Effects)
deriving DecidableEq, Repr

/-- The text-message branch of `listenForWebSocketMessages`: authorize the
envelope via `validateGameToken`; an invalid result returns (closing the
connection), otherwise `processMessage` runs and the read loop goes on. -/
def handleTextMessage (decodeAction : String → Option ActionMsg) (db : DB)
    (message : WsMsg) : StepOutcome :=
  let vt := validateGameToken db message.gameId message.token
  if vt.1 = PlayerType.invalid then .closed
  else .kept (processMessage decodeAction db message vt.1 vt.2)

/-- The stored `game_over` flag of a game, `none` when the row is
missing. -/
def gameOverIn (db : DB) (gid : Int) : Option Bool :=
  (findGame db gid).map GameRow.gameOver

/-- The stored `game_result` of a game. -/
def gameResultIn (db : DB) (gid : Int) : Option String :=
  (findGame db gid).map GameRow.gameResult

/-! ### Helper lemmas -/

theorem find?_map_preserve (l : List GameRow) (u : GameRow → GameRow)
    (hu : ∀ g, (u g).gid = g.gid) (gid : Int) :
    (l.map u).find? (fun x => x.gid == gid) =
      (l.find? (fun x => x.gid == gid)).map u := by
  induction l with
  | nil => rfl
  | cons hd tl ih =>
    simp only [List.map_cons, List.find?]
    rw [hu hd]
    cases hhd : (hd.gid == gid)
    · exact ih
    · rfl

theorem findGame_markGameAsFinished (db : DB) (gid gid' : Int) (r : String) :
    findGame (markGameAsFinished db gid r) gid' =
      (findGame db gid').map (fun g =>
        if g.gid == gid then { g with gameOver := true, gameResult := r }
        else g) := by
  unfold findGame markGameAsFinished
  exact find?_map_preserve _ _ (fun g => by split <;> rfl) gid'

/-! ### Concrete fixtures -/

/-- Two registered users with one user token each, no games yet. -/
def dbUsers : DB := ⟨[⟨1, "alice"⟩, ⟨2, "bob"⟩], [⟨1, "ua"⟩, ⟨2, "ub"⟩], [], [], 1⟩

/-- The scenario-1 create request: white seat `alice` authenticated by her
user token, black seat open, public, no game record. -/
def reqSimple : Game :=
  ⟨0, "Gipf", "alice", "", "ua", "", "", false, "", 0, "", true⟩

/-- The database after `CreateGame dbUsers reqSimple "wt" "bt" "vt"`:
note the phantom action row `(1, 1, "", "")`. -/
def dbAfterCreate : DB :=
  ⟨[⟨1, "alice"⟩, ⟨2, "bob"⟩], [⟨1, "ua"⟩, ⟨2, "ub"⟩],
   [⟨1, "Gipf", 1, -1, "wt", "bt", "", false, ""⟩], [⟨1, 1, "", ""⟩], 2⟩

/-- The database after `bob` joins game 1 with fresh token `"bt2"`. -/
def dbAfterJoin : DB :=
  ⟨[⟨1, "alice"⟩, ⟨2, "bob"⟩], [⟨1, "ua"⟩, ⟨2, "ub"⟩],
   [⟨1, "Gipf", 1, 2, "wt", "bt2", "", false, ""⟩], [⟨1, 1, "", ""⟩], 2⟩

/-- A decoder standing for `json.Unmarshal` of the payload
`{action_num:1, action:"a", signature:"sA"}`. -/
def decodeA1 : String → Option ActionMsg := fun _ => some ⟨1, "a", "sA"⟩

/-- An in-progress game between the two users with two logged actions. -/
def dbTwoActions : DB :=
  ⟨[⟨1, "alice"⟩, ⟨2, "bob"⟩], [⟨1, "ua"⟩, ⟨2, "ub"⟩],
   [⟨1, "Gipf", 1, 2, "wt", "bt2", "", false, ""⟩],
   [⟨1, 1, "a", "sA"⟩, ⟨1, 2, "b", "sB"⟩], 2⟩

/-- The same game after it finished with result `"B wins"`. -/
def dbFinished : DB :=
  ⟨[⟨1, "alice"⟩, ⟨2, "bob"⟩], [⟨1, "ua"⟩, ⟨2, "ub"⟩],
   [⟨1, "Gipf", 1, 2, "wt", "bt2", "", true, "B wins"⟩],
   [⟨1, 1, "a", "sA"⟩, ⟨1, 2, "b", "sB"⟩], 2⟩

/-! ### Claims -/

/-- C1: in the simple-play scenario (create with no game record, second
player joins), the claim says the first `Action` with `action_num = 1` is
accepted and broadcast and `get` then reports `num_actions = 2`,
`game_record = "a b"`.  The code disagrees: `CreateGame` splits the empty
`GameRecord` on spaces, which in Go yields the one-element slice `[""]`,
so one phantom empty action is inserted at creation; `get` already reports
`num_actions = 1` on the fresh game, and the first `Action` with
`action_num = 1` is rejected with `invalid action number: got 1,
expected 2` and nothing is broadcast. -/
theorem c1_simple_play_first_action_rejected :
    (CreateGame dbUsers reqSimple "wt" "bt" "vt").toOption.map Prod.fst =
      some dbAfterCreate ∧
    (GetGameWithId dbAfterCreate 1).map Game.numActions = some 1 ∧
    (joinGameHandler dbAfterCreate 1 "ub" "bt2").toOption.map Prod.fst =
      some dbAfterJoin ∧
    processMessage decodeA1 dbAfterJoin ⟨1, "wt", "Action", "payload"⟩
        PlayerType.white "wt" =
      ⟨dbAfterJoin,
       [sendJSONMessage 1 "Error"
         (.jsonStr "invalid action number: got 1, expected 2")], [], false⟩ := by
  decide

/-- C2: an inbound `Action` whose `action_num` differs from the current
action count plus one is answered (for an existing, unfinished game whose
payload unmarshals) with the single per-connection reply
`Error "invalid action number: got N, expected M"` where `M = count + 1`;
the database is unchanged — in particular nothing was appended to the
action log — and nothing is broadcast. -/
theorem processMessage_invalid_action_number
    (decodeAction : String → Option ActionMsg) (db : DB) (message : WsMsg)
    (playerType : PlayerType) (token : String) (a : ActionMsg) (g : GameRow)
    (htype : message.msgType = "Action")
    (hdec : decodeAction message.message = some a)
    (hg : findGame db message.gameId = some g)
    (hover : g.gameOver = false)
    (hnum : a.actionNum ≠ (GetNumberOfActions db message.gameId : Int) + 1) :
    processMessage decodeAction db message playerType token =
      ⟨db,
       [sendJSONMessage message.gameId "Error"
         (.jsonStr ("invalid action number: got " ++ toString a.actionNum ++
           ", expected " ++
           toString ((GetNumberOfActions db message.gameId : Int) + 1)))],
       [], false⟩ := by
  have hstatus : checkGameStatus db message.gameId = none := by
    simp [checkGameStatus, hg, hover]
  have hvalid : checkActionValidity db message.gameId a.actionNum =
      some ("invalid action number: got " ++ toString a.actionNum ++
        ", expected " ++
        toString ((GetNumberOfActions db message.gameId : Int) + 1)) := by
    unfold checkActionValidity
    simp [hnum]
  simp [processMessage, htype, hdec, hstatus, hvalid]

/-- Witness for C2 at the spec's concrete numbers: a game with two logged
actions and an inbound `Action {action_num: 4}` draws
`Error "invalid action number: got 4, expected 3"`. -/
theorem processMessage_invalid_action_number_witness :
    processMessage (fun _ => some ⟨4, "c", "sC"⟩) dbTwoActions
        ⟨1, "wt", "Action", "payload4"⟩ PlayerType.white "wt" =
      ⟨dbTwoActions,
       [sendJSONMessage 1 "Error"
         (.jsonStr "invalid action number: got 4, expected 3")], [], false⟩ :=
  processMessage_invalid_action_number (fun _ => some ⟨4, "c", "sC"⟩)
    dbTwoActions ⟨1, "wt", "Action", "payload4"⟩ PlayerType.white "wt"
    ⟨4, "c", "sC"⟩ ⟨1, "Gipf", 1, 2, "wt", "bt2", "", false, ""⟩
    rfl rfl rfl rfl (by decide)

/-- C4: on a game whose `game_over` flag is set, an inbound `Action`
(whose payload unmarshals) is rejected: the sender gets the single reply
`Error "game is over"`, the database — in particular the game's action
log — is unchanged, and nothing is broadcast. -/
theorem processMessage_action_on_finished_game
    (decodeAction : String → Option ActionMsg) (db : DB) (message : WsMsg)
    (playerType : PlayerType) (token : String) (a : ActionMsg) (g : GameRow)
    (htype : message.msgType = "Action")
    (hdec : decodeAction message.message = some a)
    (hg : findGame db message.gameId = some g)
    (hover : g.gameOver = true) :
    processMessage decodeAction db message playerType token =
      ⟨db, [sendJSONMessage message.gameId "Error" (.jsonStr "game is over")],
       [], false⟩ := by
  have hstatus : checkGameStatus db message.gameId = some "game is over" := by
    simp [checkGameStatus, hg, hover]
  simp [processMessage, htype, hdec, hstatus]

/-- Witness for C4: a finished game rejects `Action {action_num: 3}` with
`game is over` and its log stays as it was. -/
theorem processMessage_action_on_finished_game_witness :
    processMessage (fun _ => some ⟨3, "c", "sC"⟩) dbFinished
        ⟨1, "wt", "Action", "payload3"⟩ PlayerType.white "wt" =
      ⟨dbFinished, [sendJSONMessage 1 "Error" (.jsonStr "game is over")],
       [], false⟩ :=
  processMessage_action_on_finished_game (fun _ => some ⟨3, "c", "sC"⟩)
    dbFinished ⟨1, "wt", "Action", "payload3"⟩ PlayerType.white "wt"
    ⟨3, "c", "sC"⟩ ⟨1, "Gipf", 1, 2, "wt", "bt2", "", true, "B wins"⟩ rfl rfl
    rfl rfl

/-- A private game (`viewer_token = "vt"`) and a public game
(`viewer_token = ""`), both created by `carol` with the black seat open. -/
def dbMixed : DB :=
  ⟨[⟨1, "carol"⟩], [⟨1, "uc"⟩],
   [⟨1, "Gipf", 1, -1, "wt", "bt", "vt", false, ""⟩,
    ⟨2, "Gipf", 1, -1, "wt2", "bt2", "", false, ""⟩], [], 3⟩

/-- The user row of `carol`. -/
def carol : UserRow := ⟨1, "carol"⟩

/-- C3: the claim — `public = true` iff the stored `viewer_token` is empty
for every operation returning games — holds for `GetGameWithId` and for
`CreateGame`'s viewer-token generation, but `getGamesWithQuery` (used by
the list-by-user and list-joinable endpoints) sets the flag the other way
round (`if game.ViewerToken != "" { game.Public = true }`): the private
game (viewer token `"vt"`) is listed with `public = true` and the public
game with `public = false`, while `get` on the same rows reports `false`
and `true`.  This contradicts `TestListingUserGames` in the repository's
own test suite. -/
theorem c3_list_public_flag_inverted :
    (GetGameWithId dbMixed 1).map Game.public = some false ∧
    (GetGameWithId dbMixed 2).map Game.public = some true ∧
    (listGamesByUser dbMixed carol).map Game.viewerToken = ["vt", ""] ∧
    (listGamesByUser dbMixed carol).map Game.public = [true, false] ∧
    (CreateGame dbMixed
        ⟨0, "Gipf", "carol", "", "uc", "", "", false, "", 0, "", false⟩
        "w3" "b3" "v3").toOption.map (fun p => p.2.viewerToken) = some "v3" ∧
    (CreateGame dbMixed
        ⟨0, "Gipf", "carol", "", "uc", "", "", false, "", 0, "", true⟩
        "w4" "b4" "v4").toOption.map (fun p => p.2.viewerToken) = some "" := by
  decide

/-- A game whose white seat is `carol` (user 1) and whose black seat is
unassigned. -/
def dbSoloWhite : DB :=
  ⟨[⟨1, "carol"⟩], [⟨1, "uc"⟩],
   [⟨1, "Gipf", 1, -1, "wt", "bt", "", false, ""⟩], [], 2⟩

/-- C6 counterexample: the claim says a join request whose token resolves
to the user already occupying the filled seat fails and leaves the row
unchanged.  In the code `joinGameHandler` never compares the joining user
with the seated one: `carol` joins her own game with her user token and
the row ends with `white_user_id = black_user_id = 1`. -/
theorem c6_join_own_game_succeeds :
    (joinGameHandler dbSoloWhite 1 "uc" "nt").toOption.map
      (fun p => p.1.games.map (fun g => (g.whiteUserId, g.blackUserId))) =
    some [((1 : Int), (1 : Int))] := by
  decide

/-- C6 amended: `joinGameHandler` checks only that the game exists, that it
is not full, and that the token resolves to some user; whenever the token
resolves to the user already occupying the filled seat — whether that seat
is white or black — and the other seat is open, the join succeeds and the
updated row holds that same user id on both seats. -/
theorem joinGameHandler_seats_same_user_twice
    (db : DB) (gid : Int) (tok ntok : String) (g : GameRow) (u : UserRow)
    (sn : String)
    (hg : findGame db gid = some g)
    (hu : GetUserWithToken db tok = some u)
    (hsn : sn ≠ "")
    (hseat :
      (screenNameOfUser db g.whiteUserId = some sn ∧
        screenNameOfUser db g.blackUserId = none ∧ u.uid = g.whiteUserId) ∨
      (screenNameOfUser db g.whiteUserId = none ∧
        screenNameOfUser db g.blackUserId = some sn ∧
        u.uid = g.blackUserId)) :
    (joinGameHandler db gid tok ntok).isOk = true ∧
    ((joinGameHandler db gid tok ntok).toOption.bind
      (fun p => findGame p.1 gid)).map
        (fun g' => (g'.whiteUserId, g'.blackUserId)) =
      some (u.uid, u.uid) := by
  rcases hseat with ⟨hwName, hbName, huid⟩ | ⟨hwName, hbName, huid⟩
  · have hview : GetGameWithId db gid = some
        { id := g.gid, gtype := g.gtype, whitePlayer := sn, blackPlayer := "",
          whiteToken := g.whiteToken, blackToken := g.blackToken,
          viewerToken := g.viewerToken, gameOver := g.gameOver,
          gameResult := g.gameResult, numActions := (GetGameRecord db gid).2,
          gameRecord := (GetGameRecord db gid).1,
          public := g.viewerToken == "" } := by
      simp [GetGameWithId, hg, hwName, hbName]
    have hupd : updateGame db
        { id := g.gid, gtype := g.gtype, whitePlayer := sn, blackPlayer := "",
          whiteToken := g.whiteToken, blackToken := g.blackToken,
          viewerToken := g.viewerToken, gameOver := g.gameOver,
          gameResult := g.gameResult, numActions := (GetGameRecord db gid).2,
          gameRecord := (GetGameRecord db gid).1,
          public := g.viewerToken == "" } u.uid ntok =
        .ok { db with games := db.games.map (fun x =>
          if x.gid == g.gid then
            { x with blackUserId := u.uid, blackToken := ntok } else x) } := by
      simp [updateGame, hsn]
    have hfind : ({ db with games := db.games.map (fun x =>
        if x.gid == g.gid then
          { x with blackUserId := u.uid, blackToken := ntok } else x) } :
          DB).games.find? (fun x => x.gid == gid) =
        some { g with blackUserId := u.uid, blackToken := ntok } := by
      have hpres : ∀ x : GameRow,
          ((if x.gid == g.gid then
            { x with blackUserId := u.uid, blackToken := ntok } else x) :
              GameRow).gid = x.gid := by
        intro x; split <;> rfl
      have hg' : db.games.find? (fun x => x.gid == gid) = some g := hg
      have hself0 := List.find?_some hg'
      have hself : (g.gid == gid) = true := hself0
      calc (db.games.map (fun x =>
            if x.gid == g.gid then
              { x with blackUserId := u.uid, blackToken := ntok } else x)).find?
              (fun x => x.gid == gid)
          = (db.games.find? (fun x => x.gid == gid)).map (fun x =>
              if x.gid == g.gid then
                { x with blackUserId := u.uid, blackToken := ntok } else x) :=
            find?_map_preserve _ _ hpres gid
        _ = some { g with blackUserId := u.uid, blackToken := ntok } := by
            rw [show findGame db gid = db.games.find? (fun x => x.gid == gid)
              from rfl] at hg
            rw [hg]
            simp
    constructor
    · simp [joinGameHandler, hview, hu, hupd, hsn, Except.isOk, Except.toBool]
    · rw [huid] at hupd hfind ⊢
      simp only [beq_iff_eq] at hfind
      simp [joinGameHandler, hview, hu, hupd, hsn, findGame, hfind, huid,
        Except.toOption]
  · have hview : GetGameWithId db gid = some
        { id := g.gid, gtype := g.gtype, whitePlayer := "", blackPlayer := sn,
          whiteToken := g.whiteToken, blackToken := g.blackToken,
          viewerToken := g.viewerToken, gameOver := g.gameOver,
          gameResult := g.gameResult, numActions := (GetGameRecord db gid).2,
          gameRecord := (GetGameRecord db gid).1,
          public := g.viewerToken == "" } := by
      simp [GetGameWithId, hg, hwName, hbName]
    have hupd : updateGame db
        { id := g.gid, gtype := g.gtype, whitePlayer := "", blackPlayer := sn,
          whiteToken := g.whiteToken, blackToken := g.blackToken,
          viewerToken := g.viewerToken, gameOver := g.gameOver,
          gameResult := g.gameResult, numActions := (GetGameRecord db gid).2,
          gameRecord := (GetGameRecord db gid).1,
          public := g.viewerToken == "" } u.uid ntok =
        .ok { db with games := db.games.map (fun x =>
          if x.gid == g.gid then
            { x with whiteUserId := u.uid, whiteToken := ntok } else x) } := by
      simp [updateGame]
    have hfind : ({ db with games := db.games.map (fun x =>
        if x.gid == g.gid then
          { x with whiteUserId := u.uid, whiteToken := ntok } else x) } :
          DB).games.find? (fun x => x.gid == gid) =
        some { g with whiteUserId := u.uid, whiteToken := ntok } := by
      have hpres : ∀ x : GameRow,
          ((if x.gid == g.gid then
            { x with whiteUserId := u.uid, whiteToken := ntok } else x) :
              GameRow).gid = x.gid := by
        intro x; split <;> rfl
      have hg' : db.games.find? (fun x => x.gid == gid) = some g := hg
      have hself0 := List.find?_some hg'
      have hself : (g.gid == gid) = true := hself0
      calc (db.games.map (fun x =>
            if x.gid == g.gid then
              { x with whiteUserId := u.uid, whiteToken := ntok } else x)).find?
              (fun x => x.gid == gid)
          = (db.games.find? (fun x => x.gid == gid)).map (fun x =>
              if x.gid == g.gid then
                { x with whiteUserId := u.uid, whiteToken := ntok } else x) :=
            find?_map_preserve _ _ hpres gid
        _ = some { g with whiteUserId := u.uid, whiteToken := ntok } := by
            rw [show findGame db gid = db.games.find? (fun x => x.gid == gid)
              from rfl] at hg
            rw [hg]
            simp
    constructor
    · simp [joinGameHandler, hview, hu, hupd, Except.isOk, Except.toBool]
    · rw [huid] at hupd hfind ⊢
      simp only [beq_iff_eq] at hfind
      simp [joinGameHandler, hview, hu, hupd, findGame, hfind, huid,
        Except.toOption]

/-- A game whose black seat is `carol` (user 1) and whose white seat is
unassigned. -/
def dbSoloBlack : DB :=
  ⟨[⟨1, "carol"⟩], [⟨1, "uc"⟩],
   [⟨1, "Gipf", -1, 1, "wt", "bt", "", false, ""⟩], [], 2⟩

/-- Witness for the amended C6 statement on both seat layouts: `carol`
joins her own game with her user token — created with her as white in one
database and as black in the other — and in both runs the row ends with
user 1 on both seats. -/
theorem joinGameHandler_seats_same_user_twice_witness :
    ((joinGameHandler dbSoloWhite 1 "uc" "nt").isOk = true ∧
     ((joinGameHandler dbSoloWhite 1 "uc" "nt").toOption.bind
       (fun p => findGame p.1 1)).map
         (fun g' => (g'.whiteUserId, g'.blackUserId)) =
       some ((1 : Int), (1 : Int))) ∧
    ((joinGameHandler dbSoloBlack 1 "uc" "nt").isOk = true ∧
     ((joinGameHandler dbSoloBlack 1 "uc" "nt").toOption.bind
       (fun p => findGame p.1 1)).map
         (fun g' => (g'.whiteUserId, g'.blackUserId)) =
       some ((1 : Int), (1 : Int))) :=
  ⟨joinGameHandler_seats_same_user_twice dbSoloWhite 1 "uc" "nt"
     ⟨1, "Gipf", 1, -1, "wt", "bt", "", false, ""⟩ ⟨1, "carol"⟩ "carol"
     rfl rfl (by decide) (Or.inl ⟨rfl, rfl, rfl⟩),
   joinGameHandler_seats_same_user_twice dbSoloBlack 1 "uc" "nt"
     ⟨1, "Gipf", -1, 1, "wt", "bt", "", false, ""⟩ ⟨1, "carol"⟩ "carol"
     rfl rfl (by decide) (Or.inr ⟨rfl, rfl, rfl⟩)⟩

/-- C9: an authorized envelope whose `message_type` is none of the five
known types draws the single per-connection reply
`Error "Unknown message type <t>"`; the database is unchanged, nothing is
broadcast, the sender is not subscribed, and the read loop keeps the
connection open (`.kept`, not `.closed`). -/
theorem handleTextMessage_unknown_type
    (decodeAction : String → Option ActionMsg) (db : DB) (message : WsMsg)
    (h1 : message.msgType ≠ "Join") (h2 : message.msgType ≠ "Action")
    (h3 : message.msgType ≠ "SendFullGame")
    (h4 : message.msgType ≠ "RejectAction")
    (h5 : message.msgType ≠ "GameOver")
    (hauth : (validateGameToken db message.gameId message.token).1 ≠
      PlayerType.invalid) :
    handleTextMessage decodeAction db message =
      .kept ⟨db, [sendJSONMessage message.gameId "Error"
        (.jsonStr ("Unknown message type " ++ message.msgType))], [],
        false⟩ := by
  unfold handleTextMessage
  rw [if_neg hauth]
  simp [processMessage, h1, h2, h3, h4, h5]

/-- Witness for C9: type `"Ping"` from an authorized player gets the
unknown-type error and the connection survives. -/
theorem handleTextMessage_unknown_type_witness :
    handleTextMessage decodeA1 dbTwoActions ⟨1, "wt", "Ping", ""⟩ =
      .kept ⟨dbTwoActions, [sendJSONMessage 1 "Error"
        (.jsonStr "Unknown message type Ping")], [], false⟩ :=
  handleTextMessage_unknown_type decodeA1 dbTwoActions ⟨1, "wt", "Ping", ""⟩
    (by decide) (by decide) (by decide) (by decide) (by decide) (by decide)

/-- C10: presenting the empty token for an existing game resolves to
`InvalidPlayer` (assuming, as the token generator guarantees, that the
Identity table holds no empty token): the `token != ""` guards skip both
seat-token comparisons, and the viewer comparison requires a non-empty
stored viewer token, so even a public game (empty viewer token) grants
nothing. -/
theorem validateGameToken_empty_token_invalid
    (db : DB) (gid : Int) (g : GameRow)
    (hg : findGame db gid = some g)
    (hlookup : lookupTokenUser db "" = none) :
    validateGameToken db gid "" = (PlayerType.invalid, "") := by
  by_cases hv : g.viewerToken = ""
  · simp [validateGameToken, hg, hlookup, hv]
  · simp [validateGameToken, hg, hlookup, hv, Ne.symm hv]

/-- Witness for C10 on a public in-progress game. -/
theorem validateGameToken_empty_token_invalid_witness :
    validateGameToken dbTwoActions 1 "" = (PlayerType.invalid, "") :=
  validateGameToken_empty_token_invalid dbTwoActions 1
    ⟨1, "Gipf", 1, 2, "wt", "bt2", "", false, ""⟩ rfl rfl

/-- An in-progress game with an empty action log (seat tokens `"tw"`,
`"tb"`). -/
def dbProgress : DB :=
  ⟨[], [], [⟨1, "Gipf", 1, 2, "tw", "tb", "", false, ""⟩], [], 2⟩

/-- A finished game with stored result `"X"`. -/
def dbOverX : DB :=
  ⟨[], [], [⟨1, "Gipf", 1, 2, "wt", "bt", "", true, "X"⟩], [], 2⟩

/-- A decoder standing for a payload that does not unmarshal. -/
def decodeNone : String → Option ActionMsg := fun _ => none

/-- C5: `validateGameToken` resolves in the claimed order: a non-empty
stored seat token equal to the presented token wins first (canonical token
is the presented one); otherwise a token the Identity table resolves to the
game's white or black user yields that seat with the game's stored seat
token as canonical; otherwise equality with a non-empty viewer token
yields viewer; every other token — including any unrecognised token on a
public game (empty viewer token) — is invalid. -/
theorem validateGameToken_resolution_order
    (db : DB) (gid : Int) (token : String) (g : GameRow)
    (hg : findGame db gid = some g)
    (hw : g.whiteToken ≠ "") (hb : g.blackToken ≠ "") :
    (token = g.whiteToken →
      validateGameToken db gid token = (PlayerType.white, token)) ∧
    (token ≠ g.whiteToken → token = g.blackToken →
      validateGameToken db gid token = (PlayerType.black, token)) ∧
    (token ≠ g.whiteToken → token ≠ g.blackToken →
      ∀ userID, lookupTokenUser db token = some userID →
        (userID = g.whiteUserId →
          validateGameToken db gid token = (PlayerType.white, g.whiteToken)) ∧
        (userID ≠ g.whiteUserId → userID = g.blackUserId →
          validateGameToken db gid token = (PlayerType.black, g.blackToken)) ∧
        (userID ≠ g.whiteUserId → userID ≠ g.blackUserId →
          (token = g.viewerToken → g.viewerToken ≠ "" →
            validateGameToken db gid token =
              (PlayerType.viewer, g.viewerToken)) ∧
          ((token ≠ g.viewerToken ∨ g.viewerToken = "") →
            validateGameToken db gid token = (PlayerType.invalid, "")))) ∧
    (token ≠ g.whiteToken → token ≠ g.blackToken →
      lookupTokenUser db token = none →
      (token = g.viewerToken → g.viewerToken ≠ "" →
        validateGameToken db gid token = (PlayerType.viewer, g.viewerToken)) ∧
      ((token ≠ g.viewerToken ∨ g.viewerToken = "") →
        validateGameToken db gid token = (PlayerType.invalid, ""))) := by
  refine ⟨?_, ?_, ?_, ?_⟩
  · intro h1
    subst h1
    simp [validateGameToken, hg, hw]
  · intro h1 h2
    subst h2
    simp [validateGameToken, hg, hb, h1]
  · intro h1 h2 userID hu
    refine ⟨?_, ?_, ?_⟩
    · intro h3
      subst h3
      simp [validateGameToken, hg, h1, h2, hu]
    · intro h3 h4
      subst h4
      simp [validateGameToken, hg, h1, h2, hu, h3]
    · intro h3 h4
      constructor
      · intro h5 h6
        subst h5
        simp [validateGameToken, hg, h1, h2, hu, h3, h4, h6]
      · intro h5
        cases h5 with
        | inl h5 => simp [validateGameToken, hg, h1, h2, hu, h3, h4, h5]
        | inr h5 => simp [validateGameToken, hg, h1, h2, hu, h3, h4, h5]
  · intro h1 h2 hn
    constructor
    · intro h5 h6
      subst h5
      simp [validateGameToken, hg, h1, h2, hn, h6]
    · intro h5
      cases h5 with
      | inl h5 => simp [validateGameToken, hg, h1, h2, hn, h5]
      | inr h5 => simp [validateGameToken, hg, h1, h2, hn, h5]

/-- Witness for C5 on the in-progress game: the white seat token resolves
to white with itself as canonical token; black's user token resolves to
black with the stored black seat token as canonical; an unrecognised token
on this public game is invalid. -/
theorem validateGameToken_resolution_order_witness :
    validateGameToken dbTwoActions 1 "wt" = (PlayerType.white, "wt") ∧
    validateGameToken dbTwoActions 1 "ub" = (PlayerType.black, "bt2") ∧
    validateGameToken dbTwoActions 1 "zz" = (PlayerType.invalid, "") :=
  ⟨(validateGameToken_resolution_order dbTwoActions 1 "wt"
      ⟨1, "Gipf", 1, 2, "wt", "bt2", "", false, ""⟩ rfl (by decide)
      (by decide)).1 rfl,
   ((validateGameToken_resolution_order dbTwoActions 1 "ub"
      ⟨1, "Gipf", 1, 2, "wt", "bt2", "", false, ""⟩ rfl (by decide)
      (by decide)).2.2.1 (by decide) (by decide) 2 rfl).2.1 (by decide) rfl,
   ((validateGameToken_resolution_order dbTwoActions 1 "zz"
      ⟨1, "Gipf", 1, 2, "wt", "bt2", "", false, ""⟩ rfl (by decide)
      (by decide)).2.2.2 (by decide) (by decide) rfl).2 (Or.inr rfl)⟩

/-- Every per-connection reply goes through `sendJSONMessage`, whose
constructed envelope leaves the token field at its zero value. -/
theorem processMessage_replies_token_empty
    (decodeAction : String → Option ActionMsg) (db : DB) (message : WsMsg)
    (playerType : PlayerType) (token : String) :
    ∀ r ∈ (processMessage decodeAction db message playerType token).replies,
      r.token = "" := by
  intro r hr
  unfold processMessage at hr
  repeat' split at hr
  all_goals simp_all [sendJSONMessage]

/-- The `GameOver` envelopes broadcast by the `RejectAction` and `GameOver`
branches are constructed with an empty token field. -/
theorem processMessage_terminal_broadcast_token_empty
    (decodeAction : String → Option ActionMsg) (db : DB) (message : WsMsg)
    (playerType : PlayerType) (token : String)
    (h : message.msgType = "RejectAction" ∨ message.msgType = "GameOver") :
    ∀ b ∈ (processMessage decodeAction db message playerType token).broadcasts,
      b.token = "" := by
  intro b hb
  unfold processMessage at hb
  cases h with
  | inl h => repeat' split at hb
             all_goals simp_all
  | inr h => repeat' split at hb
             all_goals simp_all

/-- The `Action` branch hands `broadcast` the inbound envelope itself, so
the broadcast token field is the submitting client's token. -/
theorem processMessage_action_broadcast_echoes
    (decodeAction : String → Option ActionMsg) (db : DB) (message : WsMsg)
    (playerType : PlayerType) (token : String)
    (h : message.msgType = "Action") :
    ∀ b ∈ (processMessage decodeAction db message playerType token).broadcasts,
      b.token = message.token := by
  intro b hb
  unfold processMessage at hb
  repeat' split at hb
  all_goals simp_all

/-- C7 counterexample: the claim says every broadcast envelope carries an
empty token.  An accepted `Action` is broadcast as the submitting client's
original envelope: the broadcast carries the client token `"tw"`. -/
theorem c7_action_broadcast_not_token_free :
    (processMessage decodeA1 dbProgress ⟨1, "tw", "Action", "p"⟩
      PlayerType.white "tw").broadcasts.map OutEnvelope.token = ["tw"] ∧
    ("tw" : String) ≠ "" := by
  decide

/-- C7 amended: per-connection replies always carry an empty token, and so
do the `GameOver` broadcasts of the `RejectAction`/`GameOver` branches; but
the broadcast of an accepted `Action` echoes the inbound envelope and
carries the submitting client's token. -/
theorem processMessage_outbound_token_policy
    (decodeAction : String → Option ActionMsg) (db : DB) (message : WsMsg)
    (playerType : PlayerType) (token : String) (b : OutEnvelope) :
    (b ∈ (processMessage decodeAction db message playerType token).replies →
      b.token = "") ∧
    ((message.msgType = "RejectAction" ∨ message.msgType = "GameOver") →
      b ∈ (processMessage decodeAction db message playerType token).broadcasts →
      b.token = "") ∧
    (message.msgType = "Action" →
      b ∈ (processMessage decodeAction db message playerType token).broadcasts →
      b.token = message.token) :=
  ⟨fun hb => processMessage_replies_token_empty decodeAction db message
      playerType token b hb,
   fun h hb => processMessage_terminal_broadcast_token_empty decodeAction db
      message playerType token h b hb,
   fun h hb => processMessage_action_broadcast_echoes decodeAction db message
      playerType token h b hb⟩

/-- Witness for the amended C7 statement: the concrete accepted `Action`
broadcast is in the broadcast list and carries token `"tw"`. -/
theorem processMessage_outbound_token_policy_witness :
    (⟨1, "tw", "Action", SentData.raw "p"⟩ : OutEnvelope) ∈
      (processMessage decodeA1 dbProgress ⟨1, "tw", "Action", "p"⟩
        PlayerType.white "tw").broadcasts ∧
    OutEnvelope.token ⟨1, "tw", "Action", SentData.raw "p"⟩ = "tw" :=
  ⟨by decide,
   (processMessage_outbound_token_policy decodeA1 dbProgress
      ⟨1, "tw", "Action", "p"⟩ PlayerType.white "tw"
      ⟨1, "tw", "Action", SentData.raw "p"⟩).2.2 rfl (by decide)⟩

/-- `saveAction` only appends to the actions table; the games table is
untouched. -/
theorem saveAction_games_preserved (db : DB) (gid n : Int) (a s : String)
    (db' : DB) (h : saveAction db gid n a s = .ok db') :
    db'.games = db.games := by
  unfold saveAction at h
  split at h
  · exact absurd h (by simp)
  · simp only [Except.ok.injEq] at h
    rw [← h]

/-- `gameOverIn` depends only on the games table. -/
theorem gameOverIn_games_congr (db db' : DB) (h : db'.games = db.games)
    (gid : Int) : gameOverIn db' gid = gameOverIn db gid := by
  unfold gameOverIn findGame
  rw [h]

/-- `markGameAsFinished` never clears a set `game_over` flag. -/
theorem gameOverIn_markGameAsFinished_monotone (db : DB) (gid gid' : Int)
    (r : String) (h : gameOverIn db gid' = some true) :
    gameOverIn (markGameAsFinished db gid r) gid' = some true := by
  unfold gameOverIn at h ⊢
  rw [findGame_markGameAsFinished]
  cases hf : findGame db gid' with
  | none => rw [hf] at h; simp at h
  | some g =>
    rw [hf] at h
    simp only [Option.map_some'] at h ⊢
    split <;> simp_all

/-- `markGameAsFinished` rewrites the matched row with the flag set and
the supplied result. -/
theorem findGame_markGameAsFinished_self (db : DB) (gid : Int) (r : String)
    (g : GameRow) (hg : findGame db gid = some g) :
    findGame (markGameAsFinished db gid r) gid =
      some { g with gameOver := true, gameResult := r } := by
  rw [findGame_markGameAsFinished, hg]
  have hg' : db.games.find? (fun x => x.gid == gid) = some g := hg
  have hself0 := List.find?_some hg'
  have hself : (g.gid == gid) = true := hself0
  have hself1 : g.gid = gid := by simpa using hself
  simp [hself1]

/-- After any `processMessage` call the games table is unchanged except
possibly through `markGameAsFinished` on the envelope's game. -/
theorem processMessage_db_characterization
    (decodeAction : String → Option ActionMsg) (db : DB) (message : WsMsg)
    (playerType : PlayerType) (token : String) :
    (processMessage decodeAction db message playerType token).db.games =
      db.games ∨
    (processMessage decodeAction db message playerType token).db =
      markGameAsFinished db message.gameId "Rejected action detected" ∨
    (processMessage decodeAction db message playerType token).db =
      markGameAsFinished db message.gameId message.message := by
  unfold processMessage
  repeat' split
  all_goals
    first
    | exact Or.inl rfl
    | exact Or.inr (Or.inl rfl)
    | exact Or.inr (Or.inr rfl)
    | (rename_i db' heq
       exact Or.inl (saveAction_games_preserved _ _ _ _ _ db' heq))

/-- C8 counterexample: the claim says `game_result` never changes once
`game_over = true`.  Processing a later `GameOver "Y"` on a game finished
with result `"X"` overwrites the stored result with `"Y"`, because
`markGameAsFinished` updates unconditionally and the `GameOver` branch
performs no status check. -/
theorem c8_game_result_overwritten :
    gameOverIn dbOverX 1 = some true ∧
    gameResultIn dbOverX 1 = some "X" ∧
    gameResultIn (processMessage decodeNone dbOverX
      ⟨1, "wt", "GameOver", "Y"⟩ PlayerType.white "wt").db 1 = some "Y" := by
  decide

/-- C8 amended: `game_over` is monotone — once true it stays true across
any processed message — but `game_result` is not immutable: a `GameOver`
message always rewrites the matched row to carry its own message as the
result, finished or not. -/
theorem processMessage_game_over_monotone_result_overwritten
    (decodeAction : String → Option ActionMsg) (db : DB) (message : WsMsg)
    (playerType : PlayerType) (token : String) (gid' : Int) :
    (gameOverIn db gid' = some true →
      gameOverIn (processMessage decodeAction db message playerType token).db
        gid' = some true) ∧
    (message.msgType = "GameOver" →
      ∀ g, findGame db message.gameId = some g →
        findGame (processMessage decodeAction db message playerType token).db
            message.gameId =
          some { g with gameOver := true, gameResult := message.message }) := by
  constructor
  · intro h
    rcases processMessage_db_characterization decodeAction db message
      playerType token with hc | hc | hc
    · rw [gameOverIn_games_congr _ _ hc]
      exact h
    · rw [hc]
      exact gameOverIn_markGameAsFinished_monotone _ _ _ _ h
    · rw [hc]
      exact gameOverIn_markGameAsFinished_monotone _ _ _ _ h
  · intro ht g hgm
    have hdb : (processMessage decodeAction db message playerType token).db =
        markGameAsFinished db message.gameId message.message := by
      simp [processMessage, ht]
    rw [hdb]
    exact findGame_markGameAsFinished_self db message.gameId message.message
      g hgm

/-- Witness for the amended C8 statement: the finished game stays finished
and its result becomes the later `GameOver` message. -/
theorem processMessage_game_over_monotone_result_overwritten_witness :
    gameOverIn (processMessage decodeNone dbOverX ⟨1, "wt", "GameOver", "Y"⟩
      PlayerType.white "wt").db 1 = some true ∧
    findGame (processMessage decodeNone dbOverX ⟨1, "wt", "GameOver", "Y"⟩
      PlayerType.white "wt").db 1 =
      some ⟨1, "Gipf", 1, 2, "wt", "bt", "", true, "Y"⟩ :=
  ⟨(processMessage_game_over_monotone_result_overwritten decodeNone dbOverX
      ⟨1, "wt", "GameOver", "Y"⟩ PlayerType.white "wt" 1).1 rfl,
   (processMessage_game_over_monotone_result_overwritten decodeNone dbOverX
      ⟨1, "wt", "GameOver", "Y"⟩ PlayerType.white "wt" 1).2 rfl
      ⟨1, "Gipf", 1, 2, "wt", "bt", "", true, "X"⟩ rfl⟩

end GameServer
